import Mathlib

/-
Shallow embedding of the dispatch and adaptation logic of the
xtensor-blas headers (include/xtensor-blas/xblas.hpp and
include/xtensor-blas/xlapack.hpp).

The numerical backend (cxxblas / cxxlapack) is an external collaborator:
its status codes and probed workspace sizes are taken as parameters of
the embedded wrappers.  What is embedded is everything the wrappers
themselves compute: which backend calls are made and in which order,
the integer arguments derived from shapes and strides, the throw/return
control flow around the two-call workspace-query protocol, and the
job-mode-dependent sizing of the SVD outputs.
-/

namespace XtensorBlas

/-- Shape/stride view of an xtensor array as the wrappers see it:
an ordered list of dimension sizes and one stride per dimension
(in elements).  `dimension()` is the length of the shape. -/
structure XTensor where
  shape : List Nat
  strides : List Int
deriving DecidableEq

/-- Dimensionality of an array, as returned by `dimension()`. -/
def XTensor.dimension (t : XTensor) : Nat := t.shape.length

/-- Sizes of a 2-D column-major xtensor that the SVD wrappers allocate
themselves (`u`, `vt`): only its shape matters to the embedded claims. -/
structure Mat2 where
  rows : Nat
  cols : Nat
deriving DecidableEq

/-- Trailing stride (`strides().back()`) of a freshly allocated
column-major 2-D xtensor of the given shape: stride[1] = shape[0]
(column-major cumulative product), with xtensor's convention that a
dimension of size 1 gets stride 0.  A default-constructed tensor has
shape (0, 0) and trailing stride 0. -/
def Mat2.stridesBack (a : Mat2) : Int :=
  if a.cols = 1 then 0 else (a.rows : Int)

/-- Model of `detail::select_stride` (xlapack.hpp lines 211-215):
a stride of 0 is replaced by 1, every other stride is passed through. -/
def select_stride (s : Int) : Int := if s = 0 then 1 else s

/-- Model of `detail::init_u_vt` (xlapack.hpp lines 217-252), the shared
sizing function for the SVD outputs.  Given the current `u` and `vt`
(default-constructed, shape (0,0)), the job mode and the input sizes m
and n, it resizes `u`/`vt` per the mode and returns the pair of leading
strides to pass to the backend, substituting 1 for any matrix that the
backend will not reference. -/
def init_u_vt (u vt : Mat2) (jobz : Char) (m n : Nat) :
    (Mat2 × Mat2) × (Int × Int) :=
  let u1 := if jobz = 'A' ∨ (jobz = 'O' ∧ m < n) then Mat2.mk m m else u
  let vt1 := if jobz = 'A' ∨ (jobz = 'O' ∧ n ≤ m) then Mat2.mk n n else vt
  let u2 := if jobz = 'S' then Mat2.mk m (min m n) else u1
  let vt2 := if jobz = 'S' then Mat2.mk (min m n) n else vt1
  if jobz = 'N' then ((u2, vt2), (1, 1))
  else if jobz = 'O' then
    if n ≤ m then ((u2, vt2), (1, select_stride vt2.stridesBack))
    else ((u2, vt2), (select_stride u2.stridesBack, 1))
  else ((u2, vt2), (select_stride u2.stridesBack, select_stride vt2.stridesBack))

/-- Identity of the wrapper whose workspace-size probe failed; models
the distinct message strings of the `std::runtime_error`s thrown, each
of which names the failed probe ("Could not find workspace size for
orgqr." and so on). -/
inductive LapackOp
  | orgqr | ungqr | geqrf | getri | gesddReal | gesddCplx
  | geevReal | geevCplx | syevd | heevd | gelsdReal | gelsdCplx
deriving DecidableEq

/-- Error raised by a wrapper: the only throw site is the check after
the workspace-size probe. -/
inductive LapackError
  | workspaceQueryFailed : LapackOp → LapackError
deriving DecidableEq

/-- How a wrapper call ends: either it throws a runtime error, or it
returns the (uninterpreted) integer status of the last backend call. -/
inductive LapackOutcome
  | thrown : LapackError → LapackOutcome
  | returned : Int → LapackOutcome
deriving DecidableEq

/-- Trace of one two-phase wrapper call: the `lwork` argument of each
backend invocation, in order (the probe always passes -1; the execute
call passes `work.size()`), and the outcome. -/
structure LapackRun where
  lworks : List Int
  result : LapackOutcome
deriving DecidableEq

/-- Model of `lapack::orgqr` (xlapack.hpp lines 81-123): probe with
lwork = -1; if the probe status is nonzero, throw; otherwise resize
`work` to the probed size and execute with lwork = work.size(),
returning the execute status unmodified. -/
def orgqr_run (probeInfo : Int) (probedSize : Nat) (execInfo : Int) : LapackRun :=
  { lworks := if probeInfo ≠ 0 then [-1] else [-1, (probedSize : Int)]
    result := if probeInfo ≠ 0 then .thrown (.workspaceQueryFailed .orgqr)
              else .returned execInfo }

/-- Model of `lapack::ungqr` (xlapack.hpp lines 125-167): identical
control flow to `orgqr`; the probed size is read off as the real
component of the first complex scratch element. -/
def ungqr_run (probeInfo : Int) (probedSize : Nat) (execInfo : Int) : LapackRun :=
  { lworks := if probeInfo ≠ 0 then [-1] else [-1, (probedSize : Int)]
    result := if probeInfo ≠ 0 then .thrown (.workspaceQueryFailed .ungqr)
              else .returned execInfo }

/-- Model of `lapack::geqrf` (xlapack.hpp lines 169-207): same two-call
protocol; throws on a nonzero probe status, else executes with the
probed size and returns the execute status. -/
def geqrf_run (probeInfo : Int) (probedSize : Nat) (execInfo : Int) : LapackRun :=
  { lworks := if probeInfo ≠ 0 then [-1] else [-1, (probedSize : Int)]
    result := if probeInfo ≠ 0 then .thrown (.workspaceQueryFailed .geqrf)
              else .returned execInfo }

/-- Model of `lapack::getri` (xlapack.hpp lines 434-471): same two-call
protocol, but the probe check is `info > 0` rather than `info != 0`:
only a positive probe status throws; zero or negative falls through to
the execute call. -/
def getri_run (probeInfo : Int) (probedSize : Nat) (execInfo : Int) : LapackRun :=
  { lworks := if 0 < probeInfo then [-1] else [-1, (probedSize : Int)]
    result := if 0 < probeInfo then .thrown (.workspaceQueryFailed .getri)
              else .returned execInfo }

/-- Model of the real `lapack::geev` (xlapack.hpp lines 477-529). -/
def geev_real_run (probeInfo : Int) (probedSize : Nat) (execInfo : Int) : LapackRun :=
  { lworks := if probeInfo ≠ 0 then [-1] else [-1, (probedSize : Int)]
    result := if probeInfo ≠ 0 then .thrown (.workspaceQueryFailed .geevReal)
              else .returned execInfo }

/-- Model of the complex `lapack::geev` (xlapack.hpp lines 588-644):
the probed size is the real component of the first scratch element; an
auxiliary real scratch of fixed size 2N is also passed (not part of the
query protocol). -/
def geev_cplx_run (probeInfo : Int) (probedSize : Nat) (execInfo : Int) : LapackRun :=
  { lworks := if probeInfo ≠ 0 then [-1] else [-1, (probedSize : Int)]
    result := if probeInfo ≠ 0 then .thrown (.workspaceQueryFailed .geevCplx)
              else .returned execInfo }

/-- Model of `lapack::syevd` (xlapack.hpp lines 535-583): the integer
scratch is also probed and resized; the trace records the `lwork`
arguments of the two calls. -/
def syevd_run (probeInfo : Int) (probedSize : Nat) (execInfo : Int) : LapackRun :=
  { lworks := if probeInfo ≠ 0 then [-1] else [-1, (probedSize : Int)]
    result := if probeInfo ≠ 0 then .thrown (.workspaceQueryFailed .syevd)
              else .returned execInfo }

/-- Model of `lapack::heevd` (xlapack.hpp lines 646-701): work, rwork
and iwork are all probed and resized; the trace records the `lwork`
arguments of the two calls. -/
def heevd_run (probeInfo : Int) (probedSize : Nat) (execInfo : Int) : LapackRun :=
  { lworks := if probeInfo ≠ 0 then [-1] else [-1, (probedSize : Int)]
    result := if probeInfo ≠ 0 then .thrown (.workspaceQueryFailed .heevd)
              else .returned execInfo }

/-- Model of the real `lapack::gelsd` (xlapack.hpp lines 703-755),
restricted to the workspace-query control flow. -/
def gelsd_real_run (probeInfo : Int) (probedSize : Nat) (execInfo : Int) : LapackRun :=
  { lworks := if probeInfo ≠ 0 then [-1] else [-1, (probedSize : Int)]
    result := if probeInfo ≠ 0 then .thrown (.workspaceQueryFailed .gelsdReal)
              else .returned execInfo }

/-- Model of the complex `lapack::gelsd` (xlapack.hpp lines 757-814),
restricted to the workspace-query control flow; the probed size is the
real component of the first complex scratch element. -/
def gelsd_cplx_run (probeInfo : Int) (probedSize : Nat) (execInfo : Int) : LapackRun :=
  { lworks := if probeInfo ≠ 0 then [-1] else [-1, (probedSize : Int)]
    result := if probeInfo ≠ 0 then .thrown (.workspaceQueryFailed .gelsdCplx)
              else .returned execInfo }

/-- Full record of one `gesdd` wrapper call (either specialization):
the sizes the wrapper gives `u`, `vt` and `s`, the leading-stride
arguments it passes for `u`, `vt` and `A`, the `lwork` argument of each
backend call, and the outcome.  `u`, `vt`, the strides and the length
of `s` are all fixed before the probe call is made. -/
structure GesddRun where
  u : Mat2
  vt : Mat2
  s_len : Nat
  u_stride : Int
  vt_stride : Int
  a_stride : Int
  lworks : List Int
  result : LapackOutcome
deriving DecidableEq

/-- Model of the real `gesdd` wrapper (xlapack.hpp lines 255-321):
`s` is resized to max(1, min(m, n)); `u`, `vt` and their strides come
from `detail::init_u_vt` applied to default-constructed (0-by-0)
tensors; `A`'s stride goes through `detail::select_stride`; then the
two-call protocol runs, throwing on a nonzero probe status and
otherwise returning the execute status together with `u`, `s`, `vt`. -/
def gesdd_real_run (m n : Nat) (aStrideBack : Int) (jobz : Char)
    (probeInfo : Int) (probedSize : Nat) (execInfo : Int) : GesddRun :=
  let uvt := init_u_vt (Mat2.mk 0 0) (Mat2.mk 0 0) jobz m n
  { u := uvt.1.1
    vt := uvt.1.2
    s_len := max 1 (min m n)
    u_stride := uvt.2.1
    vt_stride := uvt.2.2
    a_stride := select_stride aStrideBack
    lworks := if probeInfo ≠ 0 then [-1] else [-1, (probedSize : Int)]
    result := if probeInfo ≠ 0 then .thrown (.workspaceQueryFailed .gesddReal)
              else .returned execInfo }

/-- Model of the complex `gesdd` wrapper (xlapack.hpp lines 324-409):
identical sizing and stride logic through the same `detail::init_u_vt`
and `detail::select_stride`; additionally sizes a real-valued auxiliary
scratch from m and n (not part of the claims), and reads the probed
size as the real component of the first complex scratch element. -/
def gesdd_cplx_run (m n : Nat) (aStrideBack : Int) (jobz : Char)
    (probeInfo : Int) (probedSize : Nat) (execInfo : Int) : GesddRun :=
  let uvt := init_u_vt (Mat2.mk 0 0) (Mat2.mk 0 0) jobz m n
  { u := uvt.1.1
    vt := uvt.1.2
    s_len := max 1 (min m n)
    u_stride := uvt.2.1
    vt_stride := uvt.2.2
    a_stride := select_stride aStrideBack
    lworks := if probeInfo ≠ 0 then [-1] else [-1, (probedSize : Int)]
    result := if probeInfo ≠ 0 then .thrown (.workspaceQueryFailed .gesddCplx)
              else .returned execInfo }

/-- Number-of-right-hand-sides argument computed by `lapack::gesv`
(xlapack.hpp line 48): `b.shape().back()` when `b` has more than one
dimension, else 1. -/
def gesv_b_dim (b : XTensor) : Int :=
  if 1 < b.dimension then (b.shape.getLastD 0 : Int) else 1

/-- Leading-dimension argument for `b` computed by `lapack::gesv`
(xlapack.hpp line 49): `b.shape().front()` when the computed number of
right-hand sides is 1, else `b.strides().back()`. -/
def gesv_b_stride (b : XTensor) : Int :=
  if gesv_b_dim b = 1 then (b.shape.headD 0 : Int) else b.strides.getLastD 0

/-- Arguments of the single backend call made by `lapack::gesv`
(xlapack.hpp lines 38-62), and the returned status.  The leading
dimension of `A` is the raw `A.strides()[1]`, with no zero-stride
normalization. -/
structure GesvCall where
  n : Int
  nrhs : Int
  lda : Int
  ldb : Int
  info : Int
deriving DecidableEq

/-- Model of `lapack::gesv` (xlapack.hpp lines 38-62): one backend
call; the wrapper returns the backend status unmodified. -/
def gesv (A b : XTensor) (execInfo : Int) : GesvCall :=
  { n := (A.shape.headD 0 : Int)
    nrhs := gesv_b_dim b
    lda := A.strides.getD 1 0
    ldb := gesv_b_stride b
    info := execInfo }

/-- Leading-dimension argument for `A` passed by `lapack::geqrf`
(xlapack.hpp lines 183 and 200): the raw `A.strides().back()`, with no
zero-stride normalization. -/
def geqrf_lda (A : XTensor) : Int := A.strides.getLastD 0

/-- Model of `lapack::getrf` (xlapack.hpp lines 64-79): a single
backend call whose status is returned unmodified. -/
def getrf_run (execInfo : Int) : LapackOutcome := .returned execInfo

/-- Model of `lapack::potr` (xlapack.hpp lines 412-426): a single
backend call whose status is returned unmodified. -/
def potr_run (execInfo : Int) : LapackOutcome := .returned execInfo

/-- Number-of-right-hand-sides argument computed by both `gelsd`
specializations (xlapack.hpp lines 711 and 767): same rule as gesv. -/
def gelsd_b_dim (b : XTensor) : Int :=
  if 1 < b.dimension then (b.shape.getLastD 0 : Int) else 1

/-- Leading-dimension argument for `b` computed by both `gelsd`
specializations (xlapack.hpp lines 712 and 768): same rule as gesv. -/
def gelsd_b_stride (b : XTensor) : Int :=
  if gelsd_b_dim b = 1 then (b.shape.headD 0 : Int) else b.strides.getLastD 0

/-- Dimension arguments `blas::gemm` (xblas.hpp lines 167-199) passes
to the backend: rows of op(A), columns of op(B), and the contraction
length, the last taken from B via transpose_B. -/
structure GemmDims where
  d1 : Nat
  d2 : Nat
  d3 : Nat
deriving DecidableEq

/-- Model of `blas::gemm` on 2-D inputs A of shape (a0, a1) and B of
shape (b0, b1), both already materialized into the result's storage
order.  `none` would mean the call is rejected before the backend is
invoked; the wrapper has no rejection path beyond its debug assertions
on layout and dimensionality (which do not inspect the shapes), so a
backend call descriptor is always produced. -/
def gemm (a0 a1 b0 b1 : Nat) (tA tB : Bool) : Option GemmDims :=
  some (GemmDims.mk (if tA then a1 else a0)
                    (if tB then b0 else b1)
                    (if tB then b1 else b0))

/-- Complex scalar as a pair of integer components, standing for the
complex element type of the vectors given to dot / dotu. -/
structure Cplx where
  re : Int
  im : Int
deriving DecidableEq

/-- Complex addition on the pair representation. -/
def Cplx.add (x y : Cplx) : Cplx := Cplx.mk (x.re + y.re) (x.im + y.im)

/-- Complex multiplication on the pair representation. -/
def Cplx.mul (x y : Cplx) : Cplx :=
  Cplx.mk (x.re * y.re - x.im * y.im) (x.re * y.im + x.im * y.re)

/-- Complex conjugation on the pair representation. -/
def Cplx.conj (x : Cplx) : Cplx := Cplx.mk x.re (-x.im)

/-- Modelled from the spec: the backend kernel behind `blas::dot`
(xblas.hpp lines 76-92) is the external cxxblas dot routine, not part
of this repository; per the spec it forms the inner product with the
first operand conjugated. -/
def dot (a b : List Cplx) : Cplx :=
  (List.zipWith (fun x y => Cplx.mul (Cplx.conj x) y) a b).foldr Cplx.add (Cplx.mk 0 0)

/-- Modelled from the spec: the backend kernel behind `blas::dotu`
(xblas.hpp lines 102-117) is the external cxxblas dotu routine, not
part of this repository; per the spec it forms the inner product
without conjugation. -/
def dotu (a b : List Cplx) : Cplx :=
  (List.zipWith Cplx.mul a b).foldr Cplx.add (Cplx.mk 0 0)

end XtensorBlas

namespace XtensorBlas

/-- C1: the SVD job-mode flag determines the output sizing exactly as
specified: mode 'A' resizes u to m-by-m and vt to n-by-n; mode 'N'
resizes neither matrix and passes 1 as the leading stride for both;
mode 'O' populates exactly one of the two (vt when m >= n, u when
m < n) and passes 1 as the leading stride of the unpopulated one; mode
'S' resizes u to m-by-min(m,n) and vt to min(m,n)-by-n; and both the
real and the complex gesdd specialization obtain their u/vt sizes and
strides from the one shared function detail::init_u_vt. -/
theorem C1_jobz_sizing (u vt : Mat2) (m n : Nat) (j : Char) (aSB : Int)
    (p : Int) (s : Nat) (e : Int) :
    (init_u_vt u vt 'A' m n).1 = (Mat2.mk m m, Mat2.mk n n)
    ∧ init_u_vt u vt 'N' m n = ((u, vt), (1, 1))
    ∧ (init_u_vt u vt 'O' m n).1 =
        (if n ≤ m then (u, Mat2.mk n n) else (Mat2.mk m m, vt))
    ∧ (if n ≤ m then (init_u_vt u vt 'O' m n).2.1 = 1
       else (init_u_vt u vt 'O' m n).2.2 = 1)
    ∧ (init_u_vt u vt 'S' m n).1 = (Mat2.mk m (min m n), Mat2.mk (min m n) n)
    ∧ (gesdd_real_run m n aSB j p s e).u = (init_u_vt (Mat2.mk 0 0) (Mat2.mk 0 0) j m n).1.1
    ∧ (gesdd_real_run m n aSB j p s e).vt = (init_u_vt (Mat2.mk 0 0) (Mat2.mk 0 0) j m n).1.2
    ∧ (gesdd_real_run m n aSB j p s e).u_stride = (init_u_vt (Mat2.mk 0 0) (Mat2.mk 0 0) j m n).2.1
    ∧ (gesdd_real_run m n aSB j p s e).vt_stride = (init_u_vt (Mat2.mk 0 0) (Mat2.mk 0 0) j m n).2.2
    ∧ (gesdd_cplx_run m n aSB j p s e).u = (init_u_vt (Mat2.mk 0 0) (Mat2.mk 0 0) j m n).1.1
    ∧ (gesdd_cplx_run m n aSB j p s e).vt = (init_u_vt (Mat2.mk 0 0) (Mat2.mk 0 0) j m n).1.2
    ∧ (gesdd_cplx_run m n aSB j p s e).u_stride = (init_u_vt (Mat2.mk 0 0) (Mat2.mk 0 0) j m n).2.1
    ∧ (gesdd_cplx_run m n aSB j p s e).vt_stride = (init_u_vt (Mat2.mk 0 0) (Mat2.mk 0 0) j m n).2.2 := by
  refine ⟨?_, ?_, ?_, ?_, ?_, rfl, rfl, rfl, rfl, rfl, rfl, rfl, rfl⟩
  · simp +decide [init_u_vt]
  · simp +decide [init_u_vt]
  · by_cases h : n ≤ m
    · simp +decide [init_u_vt, h, Nat.not_lt.mpr h]
    · simp +decide [init_u_vt, h, Nat.lt_of_not_le h]
  · by_cases h : n ≤ m
    · simp +decide [init_u_vt, h]
    · simp +decide [init_u_vt, h]
  · simp +decide [init_u_vt]

end XtensorBlas

namespace XtensorBlas

/-- C2 counterexample: getri's workspace-size probe check is
`info > 0`, not `info != 0`. With a probe status of -1 (nonzero) the
wrapper does not throw: the execute call is still made (its lwork
argument appears in the trace) and its status is returned. -/
theorem C2_counterexample :
    (getri_run (-1) 5 7).result = .returned 7
    ∧ (getri_run (-1) 5 7).lworks = [-1, 5] := by decide

/-- C2 amended: for every workspace-query operation except getri, a
nonzero probe status throws an error identifying the failed probe and
the execute call is never reached; getri throws only when the probe
status is positive — a zero or negative probe status proceeds to the
execute call. -/
theorem C2_probe_failure_aborts (p : Int) (s : Nat) (e : Int)
    (m n : Nat) (aSB : Int) (j : Char) :
    ((orgqr_run p s e).result = if p = 0 then .returned e else .thrown (.workspaceQueryFailed .orgqr))
    ∧ ((orgqr_run p s e).lworks = if p = 0 then [-1, (s : Int)] else [-1])
    ∧ ((ungqr_run p s e).result = if p = 0 then .returned e else .thrown (.workspaceQueryFailed .ungqr))
    ∧ ((ungqr_run p s e).lworks = if p = 0 then [-1, (s : Int)] else [-1])
    ∧ ((geqrf_run p s e).result = if p = 0 then .returned e else .thrown (.workspaceQueryFailed .geqrf))
    ∧ ((geqrf_run p s e).lworks = if p = 0 then [-1, (s : Int)] else [-1])
    ∧ ((geev_real_run p s e).result = if p = 0 then .returned e else .thrown (.workspaceQueryFailed .geevReal))
    ∧ ((geev_real_run p s e).lworks = if p = 0 then [-1, (s : Int)] else [-1])
    ∧ ((geev_cplx_run p s e).result = if p = 0 then .returned e else .thrown (.workspaceQueryFailed .geevCplx))
    ∧ ((geev_cplx_run p s e).lworks = if p = 0 then [-1, (s : Int)] else [-1])
    ∧ ((syevd_run p s e).result = if p = 0 then .returned e else .thrown (.workspaceQueryFailed .syevd))
    ∧ ((syevd_run p s e).lworks = if p = 0 then [-1, (s : Int)] else [-1])
    ∧ ((heevd_run p s e).result = if p = 0 then .returned e else .thrown (.workspaceQueryFailed .heevd))
    ∧ ((heevd_run p s e).lworks = if p = 0 then [-1, (s : Int)] else [-1])
    ∧ ((gelsd_real_run p s e).result = if p = 0 then .returned e else .thrown (.workspaceQueryFailed .gelsdReal))
    ∧ ((gelsd_real_run p s e).lworks = if p = 0 then [-1, (s : Int)] else [-1])
    ∧ ((gelsd_cplx_run p s e).result = if p = 0 then .returned e else .thrown (.workspaceQueryFailed .gelsdCplx))
    ∧ ((gelsd_cplx_run p s e).lworks = if p = 0 then [-1, (s : Int)] else [-1])
    ∧ ((gesdd_real_run m n aSB j p s e).result = if p = 0 then .returned e else .thrown (.workspaceQueryFailed .gesddReal))
    ∧ ((gesdd_real_run m n aSB j p s e).lworks = if p = 0 then [-1, (s : Int)] else [-1])
    ∧ ((gesdd_cplx_run m n aSB j p s e).result = if p = 0 then .returned e else .thrown (.workspaceQueryFailed .gesddCplx))
    ∧ ((gesdd_cplx_run m n aSB j p s e).lworks = if p = 0 then [-1, (s : Int)] else [-1])
    ∧ ((getri_run p s e).result = if 0 < p then .thrown (.workspaceQueryFailed .getri) else .returned e)
    ∧ ((getri_run p s e).lworks = if 0 < p then [-1] else [-1, (s : Int)]) := by
  by_cases h : p = 0
  · subst h
    simp [orgqr_run, ungqr_run, geqrf_run, getri_run, geev_real_run,
      geev_cplx_run, syevd_run, heevd_run, gelsd_real_run, gelsd_cplx_run,
      gesdd_real_run, gesdd_cplx_run]
  · by_cases h2 : 0 < p
    · simp [h, h2, orgqr_run, ungqr_run, geqrf_run, getri_run, geev_real_run,
        geev_cplx_run, syevd_run, heevd_run, gelsd_real_run, gelsd_cplx_run,
        gesdd_real_run, gesdd_cplx_run]
    · simp [h, h2, orgqr_run, ungqr_run, geqrf_run, getri_run, geev_real_run,
        geev_cplx_run, syevd_run, heevd_run, gelsd_real_run, gelsd_cplx_run,
        gesdd_real_run, gesdd_cplx_run]

/-- C3: for every factorization wrapper, the status code of the
execute-phase backend call is returned to the caller unmodified and
uninspected — whatever integer the execute call produces (positive,
zero or negative) is the wrapper's return value; no branch throws or
alters it.  Probe statuses are fixed at 0 here so that the execute
phase is reached. -/
theorem C3_execute_status_passthrough (A b : XTensor) (e : Int) (s : Nat)
    (m n : Nat) (aSB : Int) (j : Char) :
    (gesv A b e).info = e
    ∧ getrf_run e = .returned e
    ∧ potr_run e = .returned e
    ∧ (orgqr_run 0 s e).result = .returned e
    ∧ (ungqr_run 0 s e).result = .returned e
    ∧ (geqrf_run 0 s e).result = .returned e
    ∧ (getri_run 0 s e).result = .returned e
    ∧ (geev_real_run 0 s e).result = .returned e
    ∧ (geev_cplx_run 0 s e).result = .returned e
    ∧ (syevd_run 0 s e).result = .returned e
    ∧ (heevd_run 0 s e).result = .returned e
    ∧ (gelsd_real_run 0 s e).result = .returned e
    ∧ (gelsd_cplx_run 0 s e).result = .returned e
    ∧ (gesdd_real_run m n aSB j 0 s e).result = .returned e
    ∧ (gesdd_cplx_run m n aSB j 0 s e).result = .returned e :=
  ⟨rfl, rfl, rfl, rfl, rfl, rfl, rfl, rfl, rfl, rfl, rfl, rfl, rfl, rfl, rfl⟩

/-- C4 counterexample: gesv's leading-dimension argument for A is the
raw `A.strides()[1]` with no zero-to-one normalization.  For A of shape
3-by-1 (whose trailing stride is 0 under xtensor's size-1-dimension
convention) the value 0 — not 1 — is passed to the backend, even though
`detail::select_stride` (which would have produced 1) exists.  So the
normalization is not applied to every matrix argument of every kernel
dispatch. -/
theorem C4_counterexample :
    (XTensor.mk [3, 1] [1, 0]).strides.getD 1 0 = 0
    ∧ (gesv (XTensor.mk [3, 1] [1, 0]) (XTensor.mk [3] [1]) 0).lda = 0
    ∧ (gesv (XTensor.mk [3, 1] [1, 0]) (XTensor.mk [3] [1]) 0).lda ≠ 1
    ∧ select_stride 0 = 1 := by decide

/-- C4 amended: zero-to-one stride normalization is applied through
`detail::select_stride` only in the gesdd dispatch (to A's stride, and
to u/vt's strides inside init_u_vt); gesv and geqrf pass the raw stride
value as the leading dimension, so a stride of 0 reaches the backend
there. -/
theorem C4_normalization_gesdd_only (m n : Nat) (aSB : Int) (j : Char)
    (p : Int) (s : Nat) (e : Int) (A b : XTensor) (e2 : Int) :
    ((gesdd_real_run m n aSB j p s e).a_stride = if aSB = 0 then 1 else aSB)
    ∧ ((gesdd_cplx_run m n aSB j p s e).a_stride = if aSB = 0 then 1 else aSB)
    ∧ ((gesv A b e2).lda = A.strides.getD 1 0)
    ∧ (geqrf_lda A = A.strides.getLastD 0)
    ∧ ((gesv (XTensor.mk [3, 1] [1, 0]) b e2).lda = 0)
    ∧ (geqrf_lda (XTensor.mk [3, 1] [1, 0]) = 0) :=
  ⟨rfl, rfl, rfl, rfl, rfl, rfl⟩

/-- C5 counterexample: a gemm call whose contraction dimensions do not
agree — op(A) is 2-by-3 (3 columns) while op(B) is 4-by-5 (4 rows) —
is not rejected: a backend call descriptor carrying the mismatched
dimensions is produced, so the backend kernel is invoked. -/
theorem C5_counterexample :
    gemm 2 3 4 5 false false ≠ none
    ∧ gemm 2 3 4 5 false false = some (GemmDims.mk 2 5 4) := by decide

/-- C5 amended: gemm performs no contraction-dimension validation at
all; every call on 2-D operands (storage orders having been normalized
by view materialization) produces a backend dispatch, whatever the
shapes and transpose flags, so mismatched contraction dimensions reach
the backend. -/
theorem C5_no_contraction_check (a0 a1 b0 b1 : Nat) (tA tB : Bool) :
    (gemm a0 a1 b0 b1 tA tB).isSome = true := rfl

/-- C6: gemm with transpose_A = true and transpose_B = false on A of
shape m-by-n and B of shape m-by-k passes dimension arguments
describing an n-by-k result: the first dimension argument is A's
column count n, the second is B's column count k (and the contraction
length, taken from B, is m). -/
theorem C6_gemm_transA_dims (m n k : Nat) :
    gemm m n m k true false = some (GemmDims.mk n k m) := rfl

/-- C7: for every workspace-query operation, the scratch buffer handed
to the execute-phase call has size exactly equal to the size the probe
phase reported (for complex kernels, the real component of the first
scratch element): the execute call's lwork argument is the probed size
itself, so a smaller buffer is never passed. -/
theorem C7_exec_work_size (s : Nat) (e : Int) (m n : Nat) (aSB : Int) (j : Char) :
    (orgqr_run 0 s e).lworks = [-1, (s : Int)]
    ∧ (ungqr_run 0 s e).lworks = [-1, (s : Int)]
    ∧ (geqrf_run 0 s e).lworks = [-1, (s : Int)]
    ∧ (getri_run 0 s e).lworks = [-1, (s : Int)]
    ∧ (geev_real_run 0 s e).lworks = [-1, (s : Int)]
    ∧ (geev_cplx_run 0 s e).lworks = [-1, (s : Int)]
    ∧ (syevd_run 0 s e).lworks = [-1, (s : Int)]
    ∧ (heevd_run 0 s e).lworks = [-1, (s : Int)]
    ∧ (gelsd_real_run 0 s e).lworks = [-1, (s : Int)]
    ∧ (gelsd_cplx_run 0 s e).lworks = [-1, (s : Int)]
    ∧ (gesdd_real_run m n aSB j 0 s e).lworks = [-1, (s : Int)]
    ∧ (gesdd_cplx_run m n aSB j 0 s e).lworks = [-1, (s : Int)] :=
  ⟨rfl, rfl, rfl, rfl, rfl, rfl, rfl, rfl, rfl, rfl, rfl, rfl⟩

/-- C8: dot conjugates its first operand and dotu does not, so
dot(a, b) = dotu(conjugate(a), b) for all complex vectors a and b,
while dot(a, b) = conjugate(dotu(a, b)) fails in general — witnessed
at a = b = [i]. -/
theorem C8_dot_dotu_conj (a b : List Cplx) :
    dot a b = dotu (a.map Cplx.conj) b
    ∧ dot [Cplx.mk 0 1] [Cplx.mk 0 1] ≠ Cplx.conj (dotu [Cplx.mk 0 1] [Cplx.mk 0 1]) := by
  constructor
  · simp [dot, dotu, List.zipWith_map_left]
  · decide

/-- C9 counterexample: for a two-dimensional b of shape 3-by-1 with
strides (1, 0), gesv's leading-dimension argument for b is
`b.shape().front()` = 3, not b's last stride 0, because the computed
number of right-hand sides is 1. -/
theorem C9_counterexample :
    gesv_b_stride (XTensor.mk [3, 1] [1, 0]) = 3
    ∧ gesv_b_stride (XTensor.mk [3, 1] [1, 0]) ≠ (XTensor.mk [3, 1] [1, 0]).strides.getLastD 0 := by
  decide

/-- C9 amended: for a one-dimensional b, the number of right-hand
sides passed is 1 and the leading dimension is b's length (its first
shape entry); for a two-dimensional b the number of right-hand sides
is b's last shape entry, and the leading dimension is b's last stride
when that entry exceeds 1 but b's first shape entry when it equals 1;
gelsd applies the same rule as gesv. -/
theorem C9_rhs_args (len r c : Nat) (s0 t0 t1 : Int) (b : XTensor) :
    gesv_b_dim (XTensor.mk [len] [s0]) = 1
    ∧ gesv_b_stride (XTensor.mk [len] [s0]) = (len : Int)
    ∧ gesv_b_dim (XTensor.mk [r, c] [t0, t1]) = (c : Int)
    ∧ gesv_b_stride (XTensor.mk [r, c] [t0, t1]) = (if c = 1 then (r : Int) else t1)
    ∧ gelsd_b_dim b = gesv_b_dim b
    ∧ gelsd_b_stride b = gesv_b_stride b := by
  refine ⟨rfl, rfl, rfl, ?_, rfl, rfl⟩
  by_cases h : c = 1
  · simp [gesv_b_stride, gesv_b_dim, XTensor.dimension, h]
  · simp [gesv_b_stride, gesv_b_dim, XTensor.dimension, h]

/-- C10: both gesdd specializations size the singular-value vector s to
max(1, min(m, n)) for every job mode (the resize does not depend on
jobz), so s is never empty, even when m or n is 0. -/
theorem C10_s_length (m n : Nat) (aSB : Int) (j : Char) (p : Int)
    (s : Nat) (e : Int) :
    (gesdd_real_run m n aSB j p s e).s_len = max 1 (min m n)
    ∧ 0 < (gesdd_real_run m n aSB j p s e).s_len
    ∧ (gesdd_cplx_run m n aSB j p s e).s_len = max 1 (min m n)
    ∧ 0 < (gesdd_cplx_run m n aSB j p s e).s_len := by
  refine ⟨rfl, ?_, rfl, ?_⟩
  · exact lt_of_lt_of_le one_pos (le_max_left 1 (min m n))
  · exact lt_of_lt_of_le one_pos (le_max_left 1 (min m n))

end XtensorBlas
